import Mathlib

/-!
Verification of the chan-backed response stream core of fg-ipfs-cmds
(src/chan.go).  The Go code connects one producer (a `chanResponseEmitter`)
and one consumer (a `chanResponse`) through an unbuffered channel guarded by
a mutex on the producer side.  We embed the shared `chanStream` state as an
explicit record and every method as a state-passing function.

Modelling conventions:
* The unbuffered channel `ch` is modelled by the queue `buf` of values that
  a successful `Emit` has handed over and the consumer has not yet received;
  a successful send appends, a receive pops the head.  In any interleaved
  execution the sequence of hand-offs is exactly this FIFO order, so the
  sequential queue is the linearised view of the channel.
* `close(ch)`, `close(waitLen)` and `close(closeCh)` are modelled by the
  Boolean flags `chClosed`, `waitLenClosed` and `closeChClosed`.
* Both `Emit` and `Next` contain a `select` racing the channel operation
  against the request context; the Boolean argument `canceled` says that the
  context case fired first.
* A blocking call that never returns in a sequential view (`Length` before
  the first-activity signal, `Next` on an open empty stream) is modelled by
  a `none`/`blocked` outcome.
* `Emit` can terminate the whole goroutine through `debug.AssertNotError`;
  this outcome is the explicit result `panicked`.
-/

namespace FgCmds

/-- Modelled from the spec: the structured error type of the external
`go-ipfs-cmdkit` dependency (not under src/): a machine-readable error
carrying a message and a numeric kind/code; its `Error()` method returns
the message. -/
structure CmdkitError where
  message : String
  code : Nat
deriving DecidableEq, Repr

/-- The Go `error` values that can flow through the stream core.
`eof` is `io.EOF`; `ctxErr` is the request context's cancellation error.
Modelled from the spec: `errClosedEmitter` and `errClosingClosedEmitter`
are the repository's "closed emitter" and "double close" sentinel errors,
declared outside src/.  A `cmdkit.Error` occurs either by value
(`cmdkitVal`) or behind a pointer (`cmdkitPtr`); Go type assertions
distinguish the two. -/
inductive GoErr where
  | eof
  | errClosedEmitter
  | errClosingClosedEmitter
  | ctxErr
  | cmdkitVal (e : CmdkitError)
  | cmdkitPtr (e : CmdkitError)
  | plain (msg : String)
deriving DecidableEq, Repr

/-- The `Error() string` method of each modelled Go error. -/
def GoErr.message : GoErr → String
  | .eof => "EOF"
  | .errClosedEmitter => "emitter closed"
  | .errClosingClosedEmitter => "closing closed emitter"
  | .ctxErr => "context canceled"
  | .cmdkitVal e => e.message
  | .cmdkitPtr e => e.message
  | .plain msg => msg

/-- Whether the error is a by-value `cmdkit.Error` (the one shape that the
private `closeWithError` rewrites, to a pointer with the same content). -/
def GoErr.isCmdkitVal : GoErr → Bool
  | .cmdkitVal _ => true
  | _ => false

/-- An `interface\x7b\x7d` value emitted on the stream: an ordinary
application value, the single-value marker, or a raw Go error value.
Modelled from the spec: `Single` (declared outside src/) is a wrapper
struct with one field `Value` meaning "this is the only value; close
successfully immediately after delivering it".  The channel-flattening
argument form of `Emit` (a channel of values, drained by `EmitChan`,
declared outside src/) is outside this value type. -/
inductive Val where
  | base (s : String)
  | single (v : Val)
  | errVal (e : GoErr)
deriving DecidableEq, Repr

/-- Whether the value is a raw Go error value, i.e. whether it implements
the Go `error` interface.  Modelled from the spec: `debug.AssertNotError`
(outside src/) panics exactly on such values. -/
def Val.isErrVal : Val → Bool
  | .errVal _ => true
  | _ => false

/-- The shared `chanStream` record of src/chan.go: the closed flag, the
three closable channels as flags, the recorded terminal error (`none` is Go
`nil`), the declared length, and the FIFO of handed-over values. -/
structure ChanStream where
  closed : Bool
  chClosed : Bool
  waitLenClosed : Bool
  closeChClosed : Bool
  err : Option GoErr
  length : Nat
  buf : List Val
deriving DecidableEq, Repr

/-- `NewChanResponsePair`: the freshly allocated stream state — nothing
closed, no error, zero length, empty channel. -/
def newChanStream : ChanStream :=
  { closed := false, chClosed := false, waitLenClosed := false
  , closeChClosed := false, err := none, length := 0, buf := [] }

/-- The private `closeWithError` of the emitter: set the closed flag,
normalise a nil error to `io.EOF` and a by-value `cmdkit.Error` to a
pointer, record it, close the value channel, and fire the first-activity
and closed signals if they have not fired yet. -/
def closeWithError (e : Option GoErr) (s : ChanStream) : ChanStream :=
  let e1 := match e with
    | none => GoErr.eof
    | some x => x
  let e2 := match e1 with
    | GoErr.cmdkitVal ce => GoErr.cmdkitPtr ce
    | x => x
  { s with closed := true, err := some e2, chClosed := true
         , waitLenClosed := true, closeChClosed := true }

/-- `chanResponseEmitter.CloseWithError`: under the write lock, fail with
the double-close sentinel if already closed, otherwise perform the private
close.  Returns the new state and the Go return value. -/
def CloseWithError (e : Option GoErr) (s : ChanStream) :
    ChanStream × Option GoErr :=
  if s.closed then (s, some GoErr.errClosingClosedEmitter)
  else (closeWithError e s, none)

/-- `chanResponseEmitter.Close`: `CloseWithError(nil)`. -/
def Close (s : ChanStream) : ChanStream × Option GoErr :=
  CloseWithError none s

/-- `chanResponseEmitter.SetLength`: under the write lock, record the
length unless the first-activity signal has already fired. -/
def SetLength (l : Nat) (s : ChanStream) : ChanStream :=
  if s.waitLenClosed then s else { s with length := l }

/-- `chanResponse.Length`: wait for the first-activity signal, then return
the recorded length.  `none` models the call still blocking. -/
def Length (s : ChanStream) : Option Nat :=
  if s.waitLenClosed then some s.length else none

/-- `chanResponse.Error`: non-blocking select on `closeCh` with a default
branch.  If the stream has closed: `nil` for a nil or `io.EOF` terminal
error, the error itself if it is a `*cmdkit.Error`, otherwise a fresh
`cmdkit.Error` wrapping the message (zero code). -/
def ResponseError (s : ChanStream) : Option CmdkitError :=
  if s.closeChClosed then
    match s.err with
    | none => none
    | some GoErr.eof => none
    | some (GoErr.cmdkitPtr e) => some e
    | some e => some { message := e.message, code := 0 }
  else none

/-- The result of one `Emit` call: normal return, an error return, or the
goroutine dying in `debug.AssertNotError`. -/
inductive EmitOut where
  | ok
  | err (e : GoErr)
  | panicked
deriving DecidableEq, Repr

/-- `chanResponseEmitter.Emit` for a non-channel argument: assert the value
is not a raw error (panic otherwise), fire the first-activity signal, fail
with the closed-emitter sentinel if the stream is closed, then race the
channel send against the context (`canceled` = the context fired first); on
a successful send of the single-value marker, auto-close successfully. -/
def Emit (v : Val) (canceled : Bool) (s : ChanStream) :
    ChanStream × EmitOut :=
  if v.isErrVal then (s, EmitOut.panicked)
  else
    let s1 := { s with waitLenClosed := true }
    if s1.closed then (s1, EmitOut.err GoErr.errClosedEmitter)
    else if canceled then (s1, EmitOut.err GoErr.ctxErr)
    else
      let s2 := { s1 with buf := s1.buf ++ [v] }
      match v with
      | Val.single _ => (closeWithError none s2, EmitOut.ok)
      | _ => (s2, EmitOut.ok)

/-- The result of one `Next` call: a received value (`(v, nil)`), the
end-of-channel return `(nil, r.err)`, the cancellation return
`(nil, ctx.Err())`, or the call still blocking on an open empty stream. -/
inductive NextOut where
  | val (v : Val)
  | done (e : Option GoErr)
  | canceled
  | blocked
deriving DecidableEq, Repr

/-- `chanResponse.Next` on a non-nil response: race the channel receive
against the context.  A received single-value marker is unwrapped; a
receive from the closed channel returns the recorded terminal error. -/
def Next (canceled : Bool) (s : ChanStream) : ChanStream × NextOut :=
  if canceled then (s, NextOut.canceled)
  else
    match s.buf with
    | v :: rest =>
      ({ s with buf := rest },
        match v with
        | Val.single w => NextOut.val w
        | _ => NextOut.val v)
    | [] => if s.chClosed then (s, NextOut.done s.err) else (s, NextOut.blocked)

/-- Run a sequence of uncanceled `Emit` calls, collecting the results. -/
def emitAll : List Val → ChanStream → ChanStream × List EmitOut
  | [], s => (s, [])
  | v :: vs, s =>
    let p := Emit v false s
    let q := emitAll vs p.1
    (q.1, p.2 :: q.2)

/-- Run `n` uncanceled `Next` calls, collecting the results. -/
def nextN : Nat → ChanStream → ChanStream × List NextOut
  | 0, s => (s, [])
  | n + 1, s =>
    let p := Next false s
    let q := nextN n p.1
    (q.1, p.2 :: q.2)

/-- The states reachable from a fresh stream by any sequence of stream-core
operations. -/
inductive Reachable : ChanStream → Prop where
  | init : Reachable newChanStream
  | emit (v : Val) (c : Bool) {s : ChanStream} :
      Reachable s → Reachable (Emit v c s).1
  | next (c : Bool) {s : ChanStream} :
      Reachable s → Reachable (Next c s).1
  | close (e : Option GoErr) {s : ChanStream} :
      Reachable s → Reachable (CloseWithError e s).1
  | setLength (l : Nat) {s : ChanStream} :
      Reachable s → Reachable (SetLength l s)

/-- One uncanceled `Emit` of an ordinary value on an open stream: success,
with the value appended to the channel and the first-activity signal fired. -/
lemma emit_base_open (x : String) (s : ChanStream) (h : s.closed = false) :
    Emit (Val.base x) false s
      = ({ s with waitLenClosed := true, buf := s.buf ++ [Val.base x] },
         EmitOut.ok) := by
  simp [Emit, Val.isErrVal, h]

/-- Emitting a list of ordinary values on an open stream: every call
succeeds, the stream stays open with its error and channel flags untouched,
and the values are appended to the channel in order. -/
lemma emitAll_base (vs : List String) (s : ChanStream) (h : s.closed = false) :
    (emitAll (vs.map Val.base) s).2 = List.replicate vs.length EmitOut.ok
    ∧ (emitAll (vs.map Val.base) s).1.closed = false
    ∧ (emitAll (vs.map Val.base) s).1.chClosed = s.chClosed
    ∧ (emitAll (vs.map Val.base) s).1.err = s.err
    ∧ (emitAll (vs.map Val.base) s).1.buf = s.buf ++ vs.map Val.base := by
  induction vs generalizing s with
  | nil => simp [emitAll, h]
  | cons x xs ih =>
    obtain ⟨h1, h2, h3, h4, h5⟩ :=
      ih { s with waitLenClosed := true, buf := s.buf ++ [Val.base x] } h
    refine ⟨?_, ?_, ?_, ?_, ?_⟩ <;>
      simp [emitAll, emit_base_open x s h, h1, h2, h3, h4, h5,
        List.replicate_succ]

/-- Draining a closed stream whose channel holds a list of ordinary values:
the next calls return the values in order, then the recorded error. -/
lemma nextN_drain (vs : List String) (s : ChanStream)
    (hb : s.buf = vs.map Val.base) (hc : s.chClosed = true) :
    (nextN (vs.length + 1) s).2
      = vs.map (fun x => NextOut.val (Val.base x)) ++ [NextOut.done s.err] := by
  induction vs generalizing s with
  | nil =>
    simp only [List.map_nil] at hb
    simp [nextN, Next, hb, hc]
  | cons x xs ih =>
    have hnext : Next false s
        = ({ s with buf := xs.map Val.base }, NextOut.val (Val.base x)) := by
      simp [Next, hb]
    have hrec := ih { s with buf := xs.map Val.base } rfl hc
    have hstep : (nextN (xs.length + 1 + 1) s).2
        = (Next false s).2 :: (nextN (xs.length + 1) (Next false s).1).2 := rfl
    simp only [List.length_cons]
    rw [hstep, hnext]
    simp [hrec]

/-- Claim C1: after successful emissions of values v1..vN on a fresh
chan-backed pair followed by a successful `Close`, the consumer's `Next`
calls return v1..vN in emission order and the call after the last value
returns the end-of-stream sentinel `io.EOF` rather than a value. -/
theorem emit_close_next_returns_values_in_order_then_eof (vs : List String) :
    (emitAll (vs.map Val.base) newChanStream).2
        = List.replicate vs.length EmitOut.ok
    ∧ (Close (emitAll (vs.map Val.base) newChanStream).1).2 = none
    ∧ (nextN (vs.length + 1)
          (Close (emitAll (vs.map Val.base) newChanStream).1).1).2
        = vs.map (fun x => NextOut.val (Val.base x))
            ++ [NextOut.done (some GoErr.eof)] := by
  obtain ⟨h1, h2, h3, h4, h5⟩ := emitAll_base vs newChanStream rfl
  have hclose : Close (emitAll (vs.map Val.base) newChanStream).1
      = (closeWithError none (emitAll (vs.map Val.base) newChanStream).1,
         none) := by
    simp [Close, CloseWithError, h2]
  refine ⟨h1, ?_, ?_⟩
  · rw [hclose]
  · rw [hclose]
    have hdrain := nextN_drain vs
      (closeWithError none (emitAll (vs.map Val.base) newChanStream).1)
      (by simpa [closeWithError] using h5) (by simp [closeWithError])
    simpa [closeWithError] using hdrain

/-- Claim C2: after N successful emissions on a fresh chan-backed pair,
`CloseWithError e` with a non-nil error e succeeds; the first N `Next`
calls return the emitted values in order and the call after the last value
returns the recorded terminal error e (stated for every error that is not a
by-value `cmdkit.Error`; such a value is first rewritten to its pointer
equivalent by `closeWithError`). -/
theorem close_with_error_next_returns_values_then_error (vs : List String)
    (e : GoErr) (he : e.isCmdkitVal = false) :
    (emitAll (vs.map Val.base) newChanStream).2
        = List.replicate vs.length EmitOut.ok
    ∧ (CloseWithError (some e) (emitAll (vs.map Val.base) newChanStream).1).2
        = none
    ∧ (nextN (vs.length + 1)
          (CloseWithError (some e)
            (emitAll (vs.map Val.base) newChanStream).1).1).2
        = vs.map (fun x => NextOut.val (Val.base x))
            ++ [NextOut.done (some e)] := by
  obtain ⟨h1, h2, h3, h4, h5⟩ := emitAll_base vs newChanStream rfl
  have herr : (closeWithError (some e)
      (emitAll (vs.map Val.base) newChanStream).1).err = some e := by
    cases e <;> simp_all [closeWithError, GoErr.isCmdkitVal]
  have hclose : CloseWithError (some e)
        (emitAll (vs.map Val.base) newChanStream).1
      = (closeWithError (some e)
          (emitAll (vs.map Val.base) newChanStream).1, none) := by
    simp [CloseWithError, h2]
  refine ⟨h1, ?_, ?_⟩
  · rw [hclose]
  · rw [hclose]
    have hdrain := nextN_drain vs
      (closeWithError (some e) (emitAll (vs.map Val.base) newChanStream).1)
      (by simpa [closeWithError] using h5) (by simp [closeWithError])
    rw [herr] at hdrain
    exact hdrain

/-- Witness for claim C2 at one emitted value and a plain error. -/
theorem close_with_error_next_returns_values_then_error_witness :
    (GoErr.plain "boom").isCmdkitVal = false
    ∧ ((emitAll (["a"].map Val.base) newChanStream).2
          = List.replicate (["a"].length) EmitOut.ok
       ∧ (CloseWithError (some (GoErr.plain "boom"))
            (emitAll (["a"].map Val.base) newChanStream).1).2 = none
       ∧ (nextN (["a"].length + 1)
            (CloseWithError (some (GoErr.plain "boom"))
              (emitAll (["a"].map Val.base) newChanStream).1).1).2
          = ["a"].map (fun x => NextOut.val (Val.base x))
              ++ [NextOut.done (some (GoErr.plain "boom"))]) :=
  ⟨rfl,
   close_with_error_next_returns_values_then_error ["a"]
     (GoErr.plain "boom") rfl⟩

/-- `Emit` either leaves the closed and channel flags alone or (single-value
auto-close) sets both to true together. -/
lemma emit_flags (v : Val) (c : Bool) (s : ChanStream) :
    ((Emit v c s).1.chClosed = s.chClosed ∧ (Emit v c s).1.closed = s.closed)
    ∨ ((Emit v c s).1.chClosed = true ∧ (Emit v c s).1.closed = true) := by
  cases v <;> simp [Emit, Val.isErrVal] <;> split_ifs <;>
    simp [closeWithError]

/-- `Next` never changes the stream state except for consuming the head of
the channel queue. -/
lemma next_preserves (c : Bool) (s : ChanStream) :
    (Next c s).1.chClosed = s.chClosed ∧ (Next c s).1.closed = s.closed
    ∧ (Next c s).1.err = s.err ∧ (Next c s).1.length = s.length
    ∧ (Next c s).1.waitLenClosed = s.waitLenClosed := by
  cases c with
  | true => simp [Next]
  | false =>
    cases hb : s.buf with
    | nil => simp only [Next, hb]; split_ifs <;> simp
    | cons v rest => simp [Next, hb]

/-- In every reachable stream state the value channel has been closed
exactly when the closed flag is set: the two transitions coincide. -/
lemma reachable_chClosed_eq_closed {s : ChanStream} (h : Reachable s) :
    s.chClosed = s.closed := by
  induction h with
  | init => rfl
  | emit v c _ ih =>
    rcases emit_flags v c _ with ⟨h1, h2⟩ | ⟨h1, h2⟩ <;> rw [h1, h2]
    exact ih
  | next c _ ih =>
    obtain ⟨h1, h2, -⟩ := next_preserves c _
    rw [h1, h2]; exact ih
  | close e _ ih =>
    rename_i t _
    by_cases hc : t.closed = true <;>
      simp [CloseWithError, closeWithError, hc, ih]
  | setLength l _ ih =>
    rename_i t _
    by_cases hw : t.waitLenClosed = true <;> simp [SetLength, hw, ih]

/-- Claim C3: on any reachable chan-backed stream that is not yet closed,
the first `Close`/`CloseWithError` succeeds and transitions the stream to
closed, closing the value channel exactly once (it was open before, and its
closing coincides with the closed-flag transition); every subsequent
`Close`/`CloseWithError` returns the double-close sentinel and returns with
the entire state — the recorded terminal error included — unchanged. -/
theorem first_close_wins_second_close_fails (s : ChanStream)
    (e e' : Option GoErr) (hr : Reachable s) (h : s.closed = false) :
    (CloseWithError e s).2 = none
    ∧ (CloseWithError e s).1.closed = true
    ∧ s.chClosed = false
    ∧ (CloseWithError e s).1.chClosed = true
    ∧ CloseWithError e' (CloseWithError e s).1
        = ((CloseWithError e s).1, some GoErr.errClosingClosedEmitter) := by
  have hch : s.chClosed = false := (reachable_chClosed_eq_closed hr).trans h
  refine ⟨?_, ?_, hch, ?_, ?_⟩ <;>
    simp [CloseWithError, closeWithError, h]

/-- Witness for claim C3 on the fresh stream. -/
theorem first_close_wins_second_close_fails_witness :
    Reachable newChanStream ∧ newChanStream.closed = false
    ∧ ((CloseWithError none newChanStream).2 = none
       ∧ (CloseWithError none newChanStream).1.closed = true
       ∧ newChanStream.chClosed = false
       ∧ (CloseWithError none newChanStream).1.chClosed = true
       ∧ CloseWithError (some GoErr.eof) (CloseWithError none newChanStream).1
           = ((CloseWithError none newChanStream).1,
              some GoErr.errClosingClosedEmitter)) :=
  ⟨Reachable.init, rfl,
   first_close_wins_second_close_fails newChanStream none (some GoErr.eof)
     Reachable.init rfl⟩

/-- Claim C4: `Emit` of any value that is not a raw Go error on a closed
stream returns the closed-emitter sentinel, delivers nothing to the channel
(the whole mutation is firing the first-activity signal), and does not
panic. -/
theorem emit_after_close_fails_without_delivery (s : ChanStream) (v : Val)
    (c : Bool) (h : s.closed = true) (hv : v.isErrVal = false) :
    Emit v c s
        = ({ s with waitLenClosed := true },
           EmitOut.err GoErr.errClosedEmitter)
    ∧ (Emit v c s).1.buf = s.buf
    ∧ (Emit v c s).2 ≠ EmitOut.panicked := by
  refine ⟨?_, ?_, ?_⟩ <;> simp [Emit, hv, h]

/-- Witness for claim C4 on a stream closed by `Close`. -/
theorem emit_after_close_fails_without_delivery_witness :
    (closeWithError none newChanStream).closed = true
    ∧ (Val.base "x").isErrVal = false
    ∧ (Emit (Val.base "x") false (closeWithError none newChanStream)
          = ({ closeWithError none newChanStream with waitLenClosed := true },
             EmitOut.err GoErr.errClosedEmitter)
       ∧ (Emit (Val.base "x") false
            (closeWithError none newChanStream)).1.buf
          = (closeWithError none newChanStream).buf
       ∧ (Emit (Val.base "x") false
            (closeWithError none newChanStream)).2 ≠ EmitOut.panicked) :=
  ⟨rfl, rfl,
   emit_after_close_fails_without_delivery (closeWithError none newChanStream)
     (Val.base "x") false rfl rfl⟩

/-- Claim C5: emitting the single-value marker on an open stream with an
empty channel succeeds, hands exactly one value to the consumer, and
auto-closes the stream successfully; the consumer's two next calls return
the wrapped value unwrapped and then end-of-stream; a subsequent `Emit`
fails with the closed-emitter sentinel and a subsequent `Close` fails with
the double-close sentinel. -/
theorem emit_single_delivers_once_then_autocloses (s : ChanStream)
    (v w : Val) (c : Bool) (h : s.closed = false) (hb : s.buf = [])
    (hw : w.isErrVal = false) :
    (Emit (Val.single v) false s).2 = EmitOut.ok
    ∧ (Emit (Val.single v) false s).1.buf = [Val.single v]
    ∧ (Emit (Val.single v) false s).1.closed = true
    ∧ (Emit (Val.single v) false s).1.err = some GoErr.eof
    ∧ (nextN 2 (Emit (Val.single v) false s).1).2
        = [NextOut.val v, NextOut.done (some GoErr.eof)]
    ∧ (Emit w c (Emit (Val.single v) false s).1).2
        = EmitOut.err GoErr.errClosedEmitter
    ∧ (Close (Emit (Val.single v) false s).1).2
        = some GoErr.errClosingClosedEmitter := by
  have hp : Emit (Val.single v) false s
      = ({ s with
            closed := true
            chClosed := true
            waitLenClosed := true
            closeChClosed := true
            err := some GoErr.eof
            buf := s.buf ++ [Val.single v] }, EmitOut.ok) := by
    simp [Emit, Val.isErrVal, h, closeWithError]
  rw [hp]
  refine ⟨rfl, ?_, rfl, rfl, ?_, ?_, ?_⟩
  · simp [hb]
  · simp [nextN, Next, hb]
  · simp [Emit, hw]
  · simp [Close, CloseWithError]

/-- Witness for claim C5 on the fresh stream. -/
theorem emit_single_delivers_once_then_autocloses_witness :
    newChanStream.closed = false ∧ newChanStream.buf = []
    ∧ (Val.base "z").isErrVal = false
    ∧ ((Emit (Val.single (Val.base "y")) false newChanStream).2 = EmitOut.ok
       ∧ (Emit (Val.single (Val.base "y")) false newChanStream).1.buf
           = [Val.single (Val.base "y")]
       ∧ (Emit (Val.single (Val.base "y")) false newChanStream).1.closed
           = true
       ∧ (Emit (Val.single (Val.base "y")) false newChanStream).1.err
           = some GoErr.eof
       ∧ (nextN 2 (Emit (Val.single (Val.base "y")) false newChanStream).1).2
           = [NextOut.val (Val.base "y"), NextOut.done (some GoErr.eof)]
       ∧ (Emit (Val.base "z") false
            (Emit (Val.single (Val.base "y")) false newChanStream).1).2
           = EmitOut.err GoErr.errClosedEmitter
       ∧ (Close (Emit (Val.single (Val.base "y")) false newChanStream).1).2
           = some GoErr.errClosingClosedEmitter) :=
  ⟨rfl, rfl, rfl,
   emit_single_delivers_once_then_autocloses newChanStream (Val.base "y")
     (Val.base "z") false rfl rfl rfl⟩

/-- No stream-core operation ever changes the declared length: `Emit`,
`CloseWithError` and `Next` leave it untouched, so once the first-activity
signal freezes it against `SetLength`, it is frozen for good. -/
lemma length_never_changed (v : Val) (c : Bool) (e : Option GoErr)
    (s : ChanStream) :
    (Emit v c s).1.length = s.length
    ∧ (CloseWithError e s).1.length = s.length
    ∧ (Next c s).1.length = s.length := by
  refine ⟨?_, ?_, (next_preserves c s).2.2.2.1⟩
  · cases v <;> simp [Emit, Val.isErrVal] <;> split_ifs <;>
      simp [closeWithError]
  · by_cases hc : s.closed = true <;>
      simp [CloseWithError, closeWithError, hc]

/-- Claim C6: `SetLength n` records n when called before the first-activity
signal has fired and is a silent no-op (the whole state is unchanged)
afterwards; `Length` blocks (`none`) until the signal fires and then
returns the declared length, which no other operation ever changes and
which is zero on a fresh stream if `SetLength` was never called. -/
theorem set_length_before_activity_only (s : ChanStream) (n : Nat) (v : Val)
    (c : Bool) (e : Option GoErr) :
    SetLength n s = (if s.waitLenClosed then s else { s with length := n })
    ∧ Length s = (if s.waitLenClosed then some s.length else none)
    ∧ newChanStream.length = 0
    ∧ newChanStream.waitLenClosed = false
    ∧ (Emit v c s).1.length = s.length
    ∧ (CloseWithError e s).1.length = s.length
    ∧ (Next c s).1.length = s.length := by
  obtain ⟨h1, h2, h3⟩ := length_never_changed v c e s
  exact ⟨rfl, rfl, rfl, rfl, h1, h2, h3⟩

/-- Claim C7: `Error()` on the chan-backed response is non-blocking (a
total function of the state); it returns nil while the stream has not yet
closed, nil after a successful close (`Close` or an explicit `io.EOF`), the
very same structured error after a close with a `*cmdkit.Error` (and the
pointer-normalized equivalent for a by-value `cmdkit.Error`, code
preserved), and a fresh `cmdkit.Error` wrapping just the message after a
close with an unstructured error. -/
theorem response_error_reports_structured_terminal_error (s : ChanStream)
    (ce : CmdkitError) (msg : String) (h : s.closed = false)
    (hcc : s.closeChClosed = false) :
    ResponseError s = none
    ∧ ResponseError (Close s).1 = none
    ∧ ResponseError (CloseWithError (some GoErr.eof) s).1 = none
    ∧ ResponseError (CloseWithError (some (GoErr.cmdkitPtr ce)) s).1 = some ce
    ∧ ResponseError (CloseWithError (some (GoErr.cmdkitVal ce)) s).1 = some ce
    ∧ ResponseError (CloseWithError (some (GoErr.plain msg)) s).1
        = some { message := msg, code := 0 } := by
  refine ⟨?_, ?_, ?_, ?_, ?_, ?_⟩ <;>
    simp [ResponseError, Close, CloseWithError, closeWithError, h, hcc,
      GoErr.message]

/-- Witness for claim C7 on the fresh stream. -/
theorem response_error_reports_structured_terminal_error_witness :
    newChanStream.closed = false ∧ newChanStream.closeChClosed = false
    ∧ (ResponseError newChanStream = none
       ∧ ResponseError (Close newChanStream).1 = none
       ∧ ResponseError (CloseWithError (some GoErr.eof) newChanStream).1
           = none
       ∧ ResponseError (CloseWithError
            (some (GoErr.cmdkitPtr { message := "bad", code := 7 }))
            newChanStream).1 = some { message := "bad", code := 7 }
       ∧ ResponseError (CloseWithError
            (some (GoErr.cmdkitVal { message := "bad", code := 7 }))
            newChanStream).1 = some { message := "bad", code := 7 }
       ∧ ResponseError (CloseWithError (some (GoErr.plain "m"))
            newChanStream).1 = some { message := "m", code := 0 }) :=
  ⟨rfl, rfl,
   response_error_reports_structured_terminal_error newChanStream
     { message := "bad", code := 7 } "m" rfl rfl⟩

/-- Claim C8: when the request context fires while `Emit` is blocked on the
channel send (so the stream is open and the closed check has passed), the
call returns the context's cancellation error, the value is not delivered,
and no state beyond the already-fired first-activity signal is mutated; a
`Next` for which the context case fires returns the cancellation error with
no value and a completely unchanged state. -/
theorem canceled_emit_next_return_context_error (s : ChanStream) (v : Val)
    (h : s.closed = false) (hv : v.isErrVal = false) :
    Emit v true s = ({ s with waitLenClosed := true },
                     EmitOut.err GoErr.ctxErr)
    ∧ (Emit v true s).1.buf = s.buf
    ∧ Next true s = (s, NextOut.canceled) := by
  refine ⟨?_, ?_, ?_⟩ <;> simp [Emit, Next, hv, h]

/-- Witness for claim C8 on the fresh stream. -/
theorem canceled_emit_next_return_context_error_witness :
    newChanStream.closed = false ∧ (Val.base "x").isErrVal = false
    ∧ (Emit (Val.base "x") true newChanStream
          = ({ newChanStream with waitLenClosed := true },
             EmitOut.err GoErr.ctxErr)
       ∧ (Emit (Val.base "x") true newChanStream).1.buf = newChanStream.buf
       ∧ Next true newChanStream = (newChanStream, NextOut.canceled)) :=
  ⟨rfl, rfl,
   canceled_emit_next_return_context_error newChanStream (Val.base "x")
     rfl rfl⟩

/-- Claim C9: in the stream core the only panic is the deliberate
`debug.AssertNotError` assertion: an `Emit` call panics exactly when its
argument is a raw Go error value (the removed legacy error-emitting
pattern), and `CloseWithError` always returns an error value — nil on the
first close, the double-close sentinel afterwards — rather than
panicking. -/
theorem only_raw_error_emit_panics (s : ChanStream) (v : Val) (c : Bool)
    (e : Option GoErr) :
    ((Emit v c s).2 = EmitOut.panicked ↔ v.isErrVal = true)
    ∧ ((CloseWithError e s).2 = none
       ∨ (CloseWithError e s).2 = some GoErr.errClosingClosedEmitter) := by
  constructor
  · cases v <;> simp [Emit, Val.isErrVal] <;> split_ifs <;> simp
  · by_cases hc : s.closed = true <;> simp [CloseWithError, hc]

/-- Claim C10: every `Emit` call on a value that is not a raw Go error —
the successful ones as well as those failing with the closed-emitter or
cancellation error and delivering nothing — fires the first-activity
signal, so after any such `Emit` attempt `Length()` is unblocked (returning
the frozen length) and every later `SetLength` is a no-op, even if no value
was ever produced. -/
theorem any_emit_attempt_fires_first_activity_signal (s : ChanStream)
    (v : Val) (c : Bool) (n : Nat) (hv : v.isErrVal = false) :
    (Emit v c s).1.waitLenClosed = true
    ∧ Length (Emit v c s).1 = some (Emit v c s).1.length
    ∧ SetLength n (Emit v c s).1 = (Emit v c s).1 := by
  have hw : (Emit v c s).1.waitLenClosed = true := by
    cases v with
    | base str => simp only [Emit, Val.isErrVal]; split_ifs <;>
        simp_all [closeWithError]
    | single w => simp only [Emit, Val.isErrVal]; split_ifs <;>
        simp_all [closeWithError]
    | errVal e => simp [Val.isErrVal] at hv
  exact ⟨hw, by simp [Length, hw], by simp [SetLength, hw]⟩

/-- Witness for claim C10: an `Emit` on an already-closed stream fails yet
unblocks `Length` and freezes `SetLength`. -/
theorem any_emit_attempt_fires_first_activity_signal_witness :
    (Val.base "x").isErrVal = false
    ∧ ((Emit (Val.base "x") false (closeWithError none
          newChanStream)).1.waitLenClosed = true
       ∧ Length (Emit (Val.base "x") false
            (closeWithError none newChanStream)).1
           = some (Emit (Val.base "x") false
              (closeWithError none newChanStream)).1.length
       ∧ SetLength 9 (Emit (Val.base "x") false
            (closeWithError none newChanStream)).1
           = (Emit (Val.base "x") false
              (closeWithError none newChanStream)).1) :=
  ⟨rfl,
   any_emit_attempt_fires_first_activity_signal
     (closeWithError none newChanStream) (Val.base "x") false 9 rfl⟩

end FgCmds
